import Mathlib

/-!
Verification of the fraud-detection scoring pipeline
(src/ml/serve_model.py and src/ml/train_model.py).

Numbers are modelled as exact rationals (ℚ). Fitted model and scaler
artifacts are opaque in the repository (pickled sklearn/xgboost objects);
they are modelled as oracles exposing exactly the capabilities the serving
code invokes. Python dicts are modelled as insertion-ordered association
lists, Python runtime errors as an explicit `PyError` value propagated
through `Except`.
-/

namespace FraudDetection

/-- Python runtime errors that the embedded code can raise. -/
inductive PyError where
  | keyError (key : String)
  | attributeError (attr : String)
  deriving DecidableEq

/-- A transaction record: a sparse mapping from feature name to numeric
value (`transaction_data` in serve_model.py). -/
abbrev TransactionRecord := String → Option ℚ

/-- The empty transaction `{}`. -/
def emptyTx : TransactionRecord := fun _ => none

/-- Python `dict.get(key, default)` on a transaction record. -/
def txGet (tx : TransactionRecord) (name : String) (default : ℚ) : ℚ :=
  (tx name).getD default

/-- An opaque fitted model artifact, exposing the capabilities that
serve_model.py invokes on a feature row `x`:
`proba1 x` is `predict_proba(x)[0][1]` (probability of class 1),
`decision x` is `decision_function(x)[0]`,
`label x` is `predict(x)[0]`. -/
structure Model where
  proba1 : List ℚ → ℚ
  decision : List ℚ → ℚ
  label : List ℚ → Int

/-- An opaque fitted scaler artifact (`transform` on one feature row). -/
structure Scaler where
  transform : List ℚ → List ℚ

/-- Update of a Python dict modelled as an association list: an existing
key keeps its position and gets the new value, a new key is appended. -/
def dictInsert {α : Type} (d : List (String × α)) (k : String) (v : α) :
    List (String × α) :=
  if (d.lookup k).isSome then
    d.map (fun p => if p.1 = k then (k, v) else p)
  else
    d ++ [(k, v)]

/-- The `features` dict built by `FraudModelService.extract_features`
(serve_model.py lines 50-66): one entry per recognized feature name, the
record's value if present, else the hard-coded default. -/
def features (tx : TransactionRecord) : List (String × ℚ) :=
  [("amount", txGet tx "amount" 0),
   ("hour", txGet tx "hour" 12),
   ("day_of_week", txGet tx "day_of_week" 0),
   ("is_weekend", txGet tx "is_weekend" 0),
   ("is_night", txGet tx "is_night" 0),
   ("amount_z_score", txGet tx "amount_z_score" 0),
   ("time_diff_minutes", txGet tx "time_diff_minutes" 60),
   ("has_location", txGet tx "has_location" 1),
   ("user_risk_score", txGet tx "user_risk_score" 20),
   ("user_avg_amount", txGet tx "user_avg_amount" 100),
   ("user_amount_std", txGet tx "user_amount_std" 50),
   ("user_txn_count", txGet tx "user_txn_count" 10),
   ("merchant_fraud_rate", txGet tx "merchant_fraud_rate" 0.02),
   ("merchant_category_encoded", txGet tx "merchant_category_encoded" 0),
   ("merchant_risk_encoded", txGet tx "merchant_risk_encoded" 0)]

/-- serve_model.py line 68:
`feature_vector = [features[name] for name in self.feature_names]`.
`features[name]` raises `KeyError` when `name` is not a key of the dict. -/
def feature_vector (feature_names : List String) (tx : TransactionRecord) :
    Except PyError (List ℚ) :=
  feature_names.mapM fun name =>
    match (features tx).lookup name with
    | some v => Except.ok v
    | none => Except.error (PyError.keyError name)

/-- serve_model.py lines 49-69, `FraudModelService.extract_features`: builds
the feature vector, then evaluates `np.array(feature_vector).resape(1, -1)`.
`resape` is not an ndarray attribute (the intended method is `reshape`), so
when the comprehension succeeds the call raises `AttributeError`. -/
def extract_features (feature_names : List String) (tx : TransactionRecord) :
    Except PyError (List ℚ) :=
  match feature_vector feature_names tx with
  | Except.error e => Except.error e
  | Except.ok _ => Except.error (PyError.attributeError "resape")

/-- One entry of the per-model prediction record: probability-emitting
models produce `{fraud_probability, prediction}`, the anomaly model
produces `{anomaly_score, is_anomaly}`. -/
inductive ModelPrediction where
  | prob (fraud_probability : ℚ) (prediction : Int)
  | anomaly (anomaly_score : ℚ) (is_anomaly : Int)
  deriving DecidableEq

/-- serve_model.py lines 84-103: the `predictions` dict built by
`predict_fraud` from the loaded models and the scaled feature row. -/
def model_predictions (models : List (String × Model)) (x : List ℚ) :
    List (String × ModelPrediction) :=
  (match models.lookup "random_forest" with
   | some m =>
       [("random_forest",
         ModelPrediction.prob (m.proba1 x) (if m.proba1 x > 0.5 then 1 else 0))]
   | none => []) ++
  (match models.lookup "xgboost" with
   | some m =>
       [("xgboost",
         ModelPrediction.prob (m.proba1 x) (if m.proba1 x > 0.5 then 1 else 0))]
   | none => []) ++
  (match models.lookup "isolation_forest" with
   | some m =>
       [("isolation_forest",
         ModelPrediction.anomaly (m.decision x) (if m.label x = -1 then 1 else 0))]
   | none => [])

/-- The `fraud_probability` field of a prediction-record entry, when the
entry exists and is probability-shaped. Entries stored under
`random_forest` and `xgboost` by `model_predictions` are always
probability-shaped (lines 85-96), so on records the program builds this is
exactly the two `fraud_scores.append(...)` accesses of lines 106-109. -/
def probOf : Option ModelPrediction → List ℚ
  | some (ModelPrediction.prob p _) => [p]
  | _ => []

/-- serve_model.py lines 105-109: the `fraud_scores` list. -/
def fraud_scores (preds : List (String × ModelPrediction)) : List ℚ :=
  probOf (preds.lookup "random_forest") ++ probOf (preds.lookup "xgboost")

/-- serve_model.py line 111:
`ensemble_score = np.mean(fraud_scores) if fraud_scores else 0`. -/
def ensemble_score (preds : List (String × ModelPrediction)) : ℚ :=
  if fraud_scores preds = [] then 0
  else (fraud_scores preds).sum / (fraud_scores preds).length

/-- serve_model.py lines 113-121: threshold mapping from the ensemble score
to `(risk_level, action)`, evaluated high to low. -/
def risk_level_action (s : ℚ) : String × String :=
  if s ≥ 0.8 then ("HIGH", "BLOCK")
  else if s ≥ 0.5 then ("MEDIUM", "REVIEW")
  else ("LOW", "ALLOW")

/-- The response of `predict_fraud`: either the structured
`no models loaded` dict (lines 73-77) or the success dict (lines 123-130). -/
inductive PredictionResponse where
  | noModels (error : String) (fraud_score : ℚ)
      (model_predictions : List (String × ModelPrediction))
  | result (fraud_score : ℚ) (risk_level : String) (action : String)
      (model_predictions : List (String × ModelPrediction))
      (feature_count : Nat) (models_used : List String)
  deriving DecidableEq

/-- The `fraud_score` field of either response shape. -/
def PredictionResponse.fraudScore : PredictionResponse → ℚ
  | PredictionResponse.noModels _ s _ => s
  | PredictionResponse.result s _ _ _ _ _ => s

/-- serve_model.py lines 105-130: aggregation of the per-model prediction
record into the success response (ensemble score, thresholding, ×100). -/
def aggregate (preds : List (String × ModelPrediction)) (feature_count : Nat) :
    PredictionResponse :=
  PredictionResponse.result (ensemble_score preds * 100)
    (risk_level_action (ensemble_score preds)).1
    (risk_level_action (ensemble_score preds)).2
    preds feature_count (preds.map Prod.fst)

/-- Metadata loaded from `metadata.json`; `feature_names` is read with
`metadata.get('feature_names', [])`. -/
structure Metadata where
  feature_names : Option (List String)
  deriving DecidableEq

/-- The mutable state of `FraudModelService`: `self.models`,
`self.scalers`, `self.feature_names`, `self.metadata`. -/
structure ServiceState where
  models : List (String × Model)
  scalers : List (String × Scaler)
  feature_names : List String
  metadata : Option Metadata

/-- The freshly constructed service state (`__init__`, before
`load_models`): all containers empty. -/
def initState : ServiceState :=
  { models := [], scalers := [], feature_names := [], metadata := none }

/-- Character-level embedding of Python `str.replace(pat, rep)` for a
non-empty pattern: every (non-overlapping, leftmost) occurrence of `pat`
is replaced by `rep`. The fuel argument bounds recursion and always
suffices at `length + 1`. -/
def replaceChars (pat rep : List Char) : Nat → List Char → List Char
  | _, [] => []
  | 0, s => s
  | fuel + 1, c :: rest =>
      if (c :: rest).take pat.length = pat then
        rep ++ replaceChars pat rep fuel ((c :: rest).drop pat.length)
      else
        c :: replaceChars pat rep fuel rest

/-- Python `s.replace(pat, rep)` on strings. -/
def pyReplace (s pat rep : String) : String :=
  String.mk (replaceChars pat.data rep.data (s.data.length + 1) s.data)

/-- The contents of the artifact directory as seen by `load_models`:
whether the directory exists, the parsed `metadata.json` if present, the
model `.pkl` files present (by filename), and the scaler file if present. -/
structure Directory where
  dirExists : Bool
  metadata : Option Metadata
  pklFiles : List (String × Model)
  scaler : Option Scaler

/-- serve_model.py line 33: the closed list of expected model filenames. -/
def model_files : List String :=
  ["random_forest.pkl", "xgboost.pkl", "isolation_forest.pkl"]

/-- serve_model.py lines 22-48, `FraudModelService.load_models`, run
against directory contents `dir` from state `st`. If the directory is
missing it returns unchanged. Metadata, each model file present, and the
scaler are loaded in turn; the model key is
`model_file.replace(',pkl', '')` (line 37 — note the comma: the pattern
`,pkl` never occurs in the filenames, so the key keeps the `.pkl` suffix).
No container is cleared before loading. -/
def load_models (st : ServiceState) (dir : Directory) : ServiceState :=
  if !dir.dirExists then st
  else
    let st1 :=
      match dir.metadata with
      | some md =>
          { st with metadata := some md,
                    feature_names := md.feature_names.getD [] }
      | none => st
    let st2 := model_files.foldl
      (fun s file =>
        match dir.pklFiles.lookup file with
        | some m =>
            { s with models := dictInsert s.models (pyReplace file ",pkl" "") m }
        | none => s)
      st1
    match dir.scaler with
    | some sc => { st2 with scalers := dictInsert st2.scalers "standard" sc }
    | none => st2

/-- serve_model.py lines 71-130, `FraudModelService.predict_fraud`. -/
def predict_fraud (st : ServiceState) (tx : TransactionRecord) :
    Except PyError PredictionResponse :=
  if st.models.isEmpty then
    Except.ok (PredictionResponse.noModels
      "No models loaded. Please train models first" 0 [])
  else
    match extract_features st.feature_names tx with
    | Except.error e => Except.error e
    | Except.ok fv =>
        Except.ok (aggregate
          (model_predictions st.models
            (match st.scalers.lookup "standard" with
             | some sc => sc.transform fv
             | none => fv))
          st.feature_names.length)

/-- train_model.py lines 85-90, `FraudModelTrainer.prepare_features`: the
`feature_columns` list; `prepare_features` stores it in
`self.feature_names`, and `save_models` (lines 179-186) writes exactly
this list as `metadata['feature_names']`. -/
def trainer_feature_columns : List String :=
  ["amount", "hour", "day_of_week", "is_weekend", "is_night",
   "amount_z_score", "time_diff_minutes", "has_locations",
   "user_risk_score", "user_avg_amount", "user_amount_std",
   "user_txn_amount",
   "merchant_fraud_rate", "merchant_category_encoded",
   "merchant_risk_encoded"]

/-- train_model.py lines 179-186: the metadata record `save_models` writes
after `prepare_features` has run (its `feature_names` field). -/
def trainer_metadata : Metadata :=
  { feature_names := some trainer_feature_columns }

/-- Modelled from the spec: the documented per-feature default table of
section 4.1 (15 recognized names, one default each), for comparison with
the `features` dict built by the source. -/
def documentedDefaults : List (String × ℚ) :=
  [("amount", 0), ("hour", 12), ("day_of_week", 0), ("is_weekend", 0),
   ("is_night", 0), ("amount_z_score", 0), ("time_diff_minutes", 60),
   ("has_location", 1), ("user_risk_score", 20), ("user_avg_amount", 100),
   ("user_amount_std", 50), ("user_txn_count", 10),
   ("merchant_fraud_rate", 0.02), ("merchant_category_encoded", 0),
   ("merchant_risk_encoded", 0)]

/-- Modelled from the spec: the `fraud_probability` values of exactly the
probability-emitting models (`random_forest`, `xgboost`) present in a
per-model prediction record — the population of the spec's arithmetic
mean. Anomaly-shaped entries never contribute. -/
def probabilityEntries (preds : List (String × ModelPrediction)) : List ℚ :=
  preds.filterMap fun p =>
    match p with
    | (n, ModelPrediction.prob q _) =>
        if n = "random_forest" ∨ n = "xgboost" then some q else none
    | _ => none

/-- Modelled from the spec (section 4.4): the arithmetic mean of
`fraud_probability` across exactly the probability-emitting models
present, and 0 when none is present. -/
def specEnsembleScore (preds : List (String × ModelPrediction)) : ℚ :=
  if probabilityEntries preds = [] then 0
  else (probabilityEntries preds).sum / (probabilityEntries preds).length

/-- A sample opaque fitted model used to instantiate concrete scenarios. -/
def someModel : Model :=
  { proba1 := fun _ => 0.9, decision := fun _ => -0.3, label := fun _ => -1 }

/-- A sample opaque fitted scaler (identity transform). -/
def someScaler : Scaler :=
  { transform := fun v => v }

/-- A directory containing only the `random_forest.pkl` artifact. -/
def onlyRFDir : Directory :=
  { dirExists := true, metadata := none,
    pklFiles := [("random_forest.pkl", someModel)], scaler := none }

/-- A directory that exists but holds no artifact at all. -/
def emptyDir : Directory :=
  { dirExists := true, metadata := none, pklFiles := [], scaler := none }

/-- A directory with metadata, the random-forest artifact and the scaler. -/
def fullDir : Directory :=
  { dirExists := true, metadata := some { feature_names := some ["amount"] },
    pklFiles := [("random_forest.pkl", someModel)], scaler := some someScaler }

/-- A directory holding exactly what the trainer's `save_models` writes:
its metadata (with the trainer's feature-name list) and its artifacts. -/
def trainedDir : Directory :=
  { dirExists := true, metadata := some trainer_metadata,
    pklFiles := [("random_forest.pkl", someModel),
                 ("xgboost.pkl", someModel),
                 ("isolation_forest.pkl", someModel)],
    scaler := some someScaler }

/-- A service state as produced by `load_models` on a directory holding a
`random_forest.pkl` file and no metadata: the model is keyed by its full
filename and the schema is empty. -/
def rfPklState : ServiceState :=
  { models := [("random_forest.pkl", someModel)], scalers := [],
    feature_names := [], metadata := none }

/-- A service state whose models mapping is non-empty but carries none of
the three recognized model names, with a recognized two-name schema. -/
def unrecognizedKeysState : ServiceState :=
  { models := [("random_forest.pkl", someModel)], scalers := [],
    feature_names := ["amount", "hour"], metadata := none }

/-- Models mapping holding only the anomaly detector under its proper
name. -/
def isoOnlyModels : List (String × Model) := [("isolation_forest", someModel)]

/-- C1: for every per-model prediction record produced by the ensemble
predictor, the ensemble score equals the arithmetic mean of the
`fraud_probability` values of exactly the probability-emitting models
present (`random_forest`, `xgboost`); the `isolation_forest` entry never
enters the mean; when no probability-emitting model is present the
ensemble score is exactly 0; and the response's `fraud_score` is the
ensemble score multiplied by 100. -/
theorem C1_ensemble_mean (models : List (String × Model)) (x : List ℚ)
    (n : Nat) :
    (ensemble_score (model_predictions models x) =
      specEnsembleScore (model_predictions models x)) ∧
    (models.lookup "random_forest" = none → models.lookup "xgboost" = none →
      ensemble_score (model_predictions models x) = 0) ∧
    (aggregate (model_predictions models x) n).fraudScore =
      ensemble_score (model_predictions models x) * 100 := by
  rcases h1 : models.lookup "random_forest" with _ | m1 <;>
  rcases h2 : models.lookup "xgboost" with _ | m2 <;>
  rcases h3 : models.lookup "isolation_forest" with _ | m3 <;>
    simp [model_predictions, h1, h2, h3, ensemble_score, fraud_scores, probOf,
      specEnsembleScore, probabilityEntries, aggregate,
      PredictionResponse.fraudScore, List.lookup]

/-- C1 witness: with only `isolation_forest` loaded the ensemble score is
exactly 0. -/
theorem C1_ensemble_mean_witness :
    ensemble_score (model_predictions isoOnlyModels [1]) = 0 :=
  (C1_ensemble_mean isoOnlyModels [1] 15).2.1 rfl rfl

/-- C2: for every ensemble score s in [0,1], the threshold mapping of
`predict_fraud` (lines 113-121) is evaluated high-to-low with no overlap:
s ≥ 0.8 yields HIGH/BLOCK, 0.5 ≤ s < 0.8 yields MEDIUM/REVIEW, s < 0.5
yields LOW/ALLOW; in particular s = 0.8 yields HIGH/BLOCK and s = 0.5
yields MEDIUM/REVIEW. -/
theorem C2_thresholds (s : ℚ) (hlo : 0 ≤ s) (hhi : s ≤ 1) :
    (s ≥ 0.8 → risk_level_action s = ("HIGH", "BLOCK")) ∧
    (0.5 ≤ s → s < 0.8 → risk_level_action s = ("MEDIUM", "REVIEW")) ∧
    (s < 0.5 → risk_level_action s = ("LOW", "ALLOW")) ∧
    risk_level_action 0.8 = ("HIGH", "BLOCK") ∧
    risk_level_action 0.5 = ("MEDIUM", "REVIEW") := by
  refine ⟨fun h => ?_, fun ha hb => ?_, fun h => ?_, ?_, ?_⟩
  · rw [risk_level_action, if_pos h]
  · rw [risk_level_action, if_neg (by simp; linarith), if_pos (by linarith)]
  · rw [risk_level_action, if_neg (by simp; linarith),
      if_neg (by simp; linarith)]
  · rw [risk_level_action, if_pos (by norm_num)]
  · rw [risk_level_action, if_neg (by norm_num), if_pos (by norm_num)]

/-- C2 witness: the boundary scores 0.8 and 0.5 at concrete inputs. -/
theorem C2_thresholds_witness :
    risk_level_action 0.8 = ("HIGH", "BLOCK") ∧
    risk_level_action 0.5 = ("MEDIUM", "REVIEW") :=
  (C2_thresholds 0.8 (by norm_num) (by norm_num)).2.2.2

/-- C3: the `features` dict of `extract_features` has exactly the 15
recognized feature names of the documented default table, and for each of
them an absent key is filled with exactly the documented default while a
present key keeps the record's value. -/
theorem C3_defaults (tx : TransactionRecord) :
    (features tx).map Prod.fst = documentedDefaults.map Prod.fst ∧
    ∀ name d, (name, d) ∈ documentedDefaults →
      (tx name = none → (features tx).lookup name = some d) ∧
      (∀ v, tx name = some v → (features tx).lookup name = some v) := by
  refine ⟨rfl, ?_⟩
  intro name d hmem
  fin_cases hmem <;>
    exact ⟨fun h => by simp [features, txGet, h, List.lookup],
           fun v hv => by simp [features, txGet, hv, List.lookup]⟩

/-- C3 witness: the empty transaction gets the documented defaults, e.g.
`time_diff_minutes` is filled with 60. -/
theorem C3_defaults_witness :
    (features emptyTx).lookup "time_diff_minutes" = some 60 :=
  ((C3_defaults emptyTx).2 "time_diff_minutes" 60
    (by norm_num [documentedDefaults])).1 rfl

/-- C4: (code bug) loading a directory that contains only the
`random_forest.pkl` artifact does yield one loaded model, but the model is
indexed under the key `random_forest.pkl` — line 37 strips the pattern
`,pkl` (comma, not dot), a no-op — so the recognized name `random_forest`
is not a key and the ensemble predictor produces no per-model entry for
the loaded model. -/
theorem C4_load_bug :
    (load_models initState onlyRFDir).models.length = 1 ∧
    (load_models initState onlyRFDir).models.map Prod.fst
      = ["random_forest.pkl"] ∧
    ((load_models initState onlyRFDir).models.lookup "random_forest").isNone
      = true ∧
    model_predictions (load_models initState onlyRFDir).models [0] = [] := by
  decide

/-- C5: (code bug) `extract_features` lays out the feature vector in
schema order, but the final call `np.array(...).resape(1, -1)` names a
method that does not exist (`reshape` was intended), so the function
always raises `AttributeError` instead of returning the vector. -/
theorem C5_resape_bug :
    feature_vector ["amount"] emptyTx = Except.ok [0] ∧
    extract_features ["amount"] emptyTx =
      Except.error (PyError.attributeError "resape") :=
  ⟨rfl, rfl⟩

/-- C6: (code bug) the trainer persists the feature names
`has_locations` and `user_txn_amount`, which the service's `features`
dict does not recognize (it has `has_location` and `user_txn_count`), so
a service that loads the trainer's metadata raises
`KeyError('has_locations')` during extraction: the round-trip is not even
defined, let alone order-aligned. -/
theorem C6_roundtrip_bug :
    (load_models initState trainedDir).feature_names
      = trainer_feature_columns ∧
    extract_features (load_models initState trainedDir).feature_names emptyTx
      = Except.error (PyError.keyError "has_locations") :=
  ⟨rfl, rfl⟩

/-- C7 counterexample: with an empty FeatureSchema but a non-empty models
mapping (artifact file present, metadata absent), `predict_fraud` on the
empty transaction raises an `AttributeError` instead of returning the
structured no-models response. -/
theorem C7_schema_cex :
    predict_fraud rfPklState emptyTx =
      Except.error (PyError.attributeError "resape") :=
  rfl

/-- C7 (amended): the structured "no models loaded" response (fraud_score
0, no model_predictions entries) is returned exactly when the loaded
models mapping is empty — the guard tests the models dict, not the
FeatureSchema; in particular the empty transaction with zero models
loaded yields exactly this response. -/
theorem C7_no_models_response (st : ServiceState) (tx : TransactionRecord)
    (h : st.models = []) :
    predict_fraud st tx = Except.ok (PredictionResponse.noModels
      "No models loaded. Please train models first" 0 []) := by
  simp [predict_fraud, h]

/-- C7 witness: the empty transaction against the freshly constructed
(zero-model) service yields exactly the structured response. -/
theorem C7_no_models_response_witness :
    predict_fraud initState emptyTx = Except.ok (PredictionResponse.noModels
      "No models loaded. Please train models first" 0 []) :=
  C7_no_models_response initState emptyTx rfl

/-- C8: (code bug) `load_models` / `reload` never clears `self.models`,
`self.scalers`, `self.feature_names` or `self.metadata`, so after a
reload against a now-empty directory the previously loaded model, scaler,
metadata and schema all survive — a partial merge, not a replacement. -/
theorem C8_reload_bug :
    (load_models (load_models initState fullDir) emptyDir).models.map Prod.fst
      = ["random_forest.pkl"] ∧
    (load_models (load_models initState fullDir) emptyDir).scalers.map Prod.fst
      = ["standard"] ∧
    (load_models (load_models initState fullDir) emptyDir).metadata
      = some { feature_names := some ["amount"] } ∧
    (load_models (load_models initState fullDir) emptyDir).feature_names
      = ["amount"] := by
  decide

/-- C9: in the per-model prediction record, each probability-emitting
model present contributes `fraud_probability = P(class=1)` and
`prediction = 1` iff that probability exceeds 0.5; a present
`isolation_forest` contributes its signed decision value and
`is_anomaly = 1` exactly when its own label is the outlier sentinel -1;
an absent model's entry is omitted. -/
theorem C9_per_model (models : List (String × Model)) (x : List ℚ) :
    (∀ m, models.lookup "random_forest" = some m →
      (model_predictions models x).lookup "random_forest" =
        some (ModelPrediction.prob (m.proba1 x)
          (if m.proba1 x > 0.5 then 1 else 0))) ∧
    (∀ m, models.lookup "xgboost" = some m →
      (model_predictions models x).lookup "xgboost" =
        some (ModelPrediction.prob (m.proba1 x)
          (if m.proba1 x > 0.5 then 1 else 0))) ∧
    (∀ m, models.lookup "isolation_forest" = some m →
      (model_predictions models x).lookup "isolation_forest" =
        some (ModelPrediction.anomaly (m.decision x)
          (if m.label x = -1 then 1 else 0))) ∧
    (models.lookup "random_forest" = none →
      (model_predictions models x).lookup "random_forest" = none) ∧
    (models.lookup "xgboost" = none →
      (model_predictions models x).lookup "xgboost" = none) ∧
    (models.lookup "isolation_forest" = none →
      (model_predictions models x).lookup "isolation_forest" = none) := by
  rcases h1 : models.lookup "random_forest" with _ | m1 <;>
  rcases h2 : models.lookup "xgboost" with _ | m2 <;>
  rcases h3 : models.lookup "isolation_forest" with _ | m3 <;>
    simp [model_predictions, h1, h2, h3, List.lookup]

/-- C9 witness: a concrete record with only the anomaly model present. -/
theorem C9_per_model_witness :
    (model_predictions isoOnlyModels [2]).lookup "isolation_forest" =
      some (ModelPrediction.anomaly (someModel.decision [2])
        (if someModel.label [2] = -1 then 1 else 0)) ∧
    (model_predictions isoOnlyModels [2]).lookup "random_forest" = none :=
  ⟨(C9_per_model isoOnlyModels [2]).2.2.1 someModel rfl,
   (C9_per_model isoOnlyModels [2]).2.2.2.1 rfl⟩

/-- C10 counterexample: with a non-empty models mapping holding none of
the recognized names, `predict_fraud` does not return the successful
LOW/ALLOW result the claim describes — it raises an `AttributeError` out
of `extract_features`. -/
theorem C10_unrecognized_cex :
    predict_fraud unrecognizedKeysState emptyTx =
      Except.error (PyError.attributeError "resape") :=
  rfl

/-- C10 (amended): if the loaded models mapping is non-empty (in
particular when none of its keys is a recognized model name), the
"no models loaded" branch is not taken, and `predict_fraud` raises a
Python error from `extract_features` instead of returning any result. -/
theorem C10_unrecognized_raises (st : ServiceState) (tx : TransactionRecord)
    (hne : st.models ≠ [])
    (hun : ∀ k ∈ st.models.map Prod.fst,
      k ≠ "random_forest" ∧ k ≠ "xgboost" ∧ k ≠ "isolation_forest") :
    ∃ e, predict_fraud st tx = Except.error e := by
  have hemp : st.models.isEmpty = false := by
    cases h : st.models with
    | nil => exact absurd h hne
    | cons a l => rfl
  cases hfv : feature_vector st.feature_names tx with
  | error e => exact ⟨e, by simp [predict_fraud, hemp, extract_features, hfv]⟩
  | ok v =>
      exact ⟨PyError.attributeError "resape",
        by simp [predict_fraud, hemp, extract_features, hfv]⟩

/-- C10 witness: the concrete state whose only model key is
`random_forest.pkl` raises on the empty transaction. -/
theorem C10_unrecognized_raises_witness :
    ∃ e, predict_fraud unrecognizedKeysState emptyTx = Except.error e :=
  C10_unrecognized_raises unrecognizedKeysState emptyTx
    (by simp [unrecognizedKeysState]) (by decide)

end FraudDetection
